import Mathlib

/-!
Shallow embedding of `src/Task3/Task3_Jordan_Petrov/src/python/car_wash/dbpool.py`.

The module defines two connection-pool classes, `RODBPool` and `RWDBPool`,
that are identical except that `RWDBPool.transaction` calls `conn.commit()`
on the success path before putting the connection back, while
`RODBPool.connection` does not.  Both share:

  * state `_pool` (a Python list used as a stack: `append` / `pop`),
    `_conn_created` (count of connections created so far) and
    `_pool_size` (capacity fixed at construction);
  * `_get_connection`: a spin loop that, under `self._lock`, pops an idle
    connection if `len(self._pool) > 0`, otherwise creates a fresh one via
    `psycopg2.connect` and increments `_conn_created` when
    `_conn_created < _pool_size`, otherwise sleeps 0.1 s and retries;
  * `_put_connection(conn)`: `self._pool.append(conn)` (no lock taken);
  * a `@contextmanager` wrapping `_get_connection` / `conn.cursor()` around
    the caller's work, with `except psycopg2.Error` closing the connection
    and re-raising `psycopg2.Error('Invalid query.')`, an `else` clause
    releasing (after committing, in the read-write variant) and a `finally`
    clause closing the cursor.

Connections are modelled by their creation index (`Conn := Nat`); fresh
connections produced by the factory get index `_conn_created` at the moment
of creation.  Python exceptions are split into `psycopg2.Error` values
(`Exc.dbErr`, the only class the `except` clauses catch) and every other
exception (`Exc.otherErr`).  The caller's unit of work and the fallible
driver operations (`psycopg2.connect`, `conn.commit()`) are parameterised
by their outcome, chosen by the environment.  Side effects on the borrowed
connection (cursor open/close, commit, close, append back to the pool) are
recorded as an ordered event trace.
-/

namespace DBPool

/-- A physical connection, identified by its creation index. -/
abbrev Conn := Nat

/-- A Python exception: either a `psycopg2.Error` (the only class caught by
the `except` clauses in `dbpool.py`) or any other exception. -/
inductive Exc where
  | dbErr (msg : String)
  | otherErr (msg : String)
deriving DecidableEq, Repr

/-- The mutable bookkeeping of one pool instance: `self._pool` (idle
connections, a Python list used as a stack), `self._conn_created` and the
immutable `self._pool_size`. -/
structure PoolState where
  pool : List Conn
  conn_created : Nat
  pool_size : Nat
deriving DecidableEq, Repr

/-- The pool right after `__init__`: `self._pool = []`, `self._conn_created = 0`,
`self._pool_size = pool_size`. -/
def initPool (pool_size : Nat) : PoolState :=
  ⟨[], 0, pool_size⟩

/-- Outcome of one iteration of the `while not connection` loop body of
`_get_connection`: a connection was obtained, the iteration fell through to
`time.sleep(0.1)` (the caller spins), or `self._create_connection()` raised
(the `with self._lock` block releases the lock and the exception propagates
with the state untouched, since `self._conn_created += 1` comes after the
create call). -/
inductive AcquireResult where
  | got (c : Conn) (s : PoolState)
  | blocked
  | raised (e : Exc) (s : PoolState)
deriving DecidableEq, Repr

/-- `RODBPool._get_connection` / `RWDBPool._get_connection` (the two bodies
are textually identical).  `createRes` is the outcome of the
`psycopg2.connect` call inside `_create_connection`, should it be reached.
`self._pool.pop()` removes and returns the last element of the list. -/
def getConnection (createRes : Except Exc Unit) (s : PoolState) : AcquireResult :=
  match s.pool.getLast? with
  | some c => AcquireResult.got c { s with pool := s.pool.dropLast }
  | none =>
    if s.conn_created < s.pool_size then
      match createRes with
      | Except.ok _ =>
          AcquireResult.got s.conn_created { s with conn_created := s.conn_created + 1 }
      | Except.error e => AcquireResult.raised e s
    else
      AcquireResult.blocked

/-- `RODBPool._put_connection` / `RWDBPool._put_connection`:
`self._pool.append(conn)`. -/
def putConnection (conn : Conn) (s : PoolState) : PoolState :=
  { s with pool := s.pool ++ [conn] }

/-- One pool operation, for reasoning about arbitrary interleavings of
acquire and release calls. -/
inductive Op where
  | acquire (createRes : Except Exc Unit)
  | release (c : Conn)

/-- Apply one operation to the pool state.  A blocked acquire leaves the
state unchanged (the caller keeps spinning); a failed create leaves the
state unchanged (see `getConnection`). -/
def applyOp (s : PoolState) (op : Op) : PoolState :=
  match op with
  | Op.acquire cr =>
    match getConnection cr s with
    | AcquireResult.got _ s1 => s1
    | AcquireResult.blocked => s
    | AcquireResult.raised _ s1 => s1
  | Op.release c => putConnection c s

/-- Run a sequence of pool operations from a given state. -/
def runOps (s : PoolState) (ops : List Op) : PoolState :=
  ops.foldl applyOp s

/-- Observable side effects on a borrowed connection, in program order:
`conn.cursor()`, `cursor_.close()`, `conn.close()`, `conn.commit()`, and
`self._put_connection(conn)`. -/
inductive Event where
  | openCursor (c : Conn)
  | closeCursor (c : Conn)
  | closeConn (c : Conn)
  | commit (c : Conn)
  | releaseConn (c : Conn)
deriving DecidableEq, Repr

/-- Outcome of the caller's unit of work (the body of the `with` statement
that the context manager `yield`s into): it returns a value or raises. -/
inductive WorkOutcome (α : Type) where
  | ok (v : α)
  | raise (e : Exc)

/-- Result of one scoped session: what the caller observes (a value or a
propagated exception), the pool state afterwards, and the ordered trace of
events on the borrowed connection. -/
structure SessionRes (α : Type) where
  result : Except Exc α
  state : PoolState
  events : List Event
deriving Repr

namespace RODBPool

/-- `RODBPool.connection` (the `@contextmanager`), flattening the Python
`try`/`except psycopg2.Error`/`else`/`finally`:

  * acquire blocked: the call never returns in this sequential model (`none`);
  * `_create_connection` raised: the exception propagates before the `try`,
    no cursor is ever opened;
  * work returns `v`: the `else` clause runs `self._put_connection(conn)`,
    then `finally` runs `cursor_.close()`;
  * work raises `psycopg2.Error`: the `except` clause runs `conn.close()`
    and raises `psycopg2.Error('Invalid query.')`; `finally` closes the
    cursor; the connection is never put back;
  * work raises any other exception: neither `except` nor `else` runs;
    `finally` closes the cursor and the original exception propagates. -/
def connection {α : Type} (work : WorkOutcome α) (createRes : Except Exc Unit)
    (s : PoolState) : Option (SessionRes α) :=
  match getConnection createRes s with
  | AcquireResult.blocked => none
  | AcquireResult.raised e s1 => some ⟨Except.error e, s1, []⟩
  | AcquireResult.got conn s1 =>
    match work with
    | WorkOutcome.ok v =>
        some ⟨Except.ok v, putConnection conn s1,
              [Event.openCursor conn, Event.releaseConn conn, Event.closeCursor conn]⟩
    | WorkOutcome.raise (Exc.dbErr _) =>
        some ⟨Except.error (Exc.dbErr "Invalid query."), s1,
              [Event.openCursor conn, Event.closeConn conn, Event.closeCursor conn]⟩
    | WorkOutcome.raise (Exc.otherErr m) =>
        some ⟨Except.error (Exc.otherErr m), s1,
              [Event.openCursor conn, Event.closeCursor conn]⟩

end RODBPool

namespace RWDBPool

/-- `RWDBPool.transaction` (the `@contextmanager`).  Identical to
`RODBPool.connection` except that the `else` clause is
`conn.commit(); self._put_connection(conn)`.  `commitRes` is the outcome of
`conn.commit()`, should it be reached.  Note that in Python an exception
raised inside an `else` clause is NOT caught by the `except` clause of the
same `try` statement: a failing commit propagates unchanged, the `finally`
clause still closes the cursor, and neither `conn.close()` nor
`self._put_connection(conn)` runs. -/
def transaction {α : Type} (work : WorkOutcome α) (commitRes : Except Exc Unit)
    (createRes : Except Exc Unit) (s : PoolState) : Option (SessionRes α) :=
  match getConnection createRes s with
  | AcquireResult.blocked => none
  | AcquireResult.raised e s1 => some ⟨Except.error e, s1, []⟩
  | AcquireResult.got conn s1 =>
    match work with
    | WorkOutcome.ok v =>
        match commitRes with
        | Except.ok _ =>
            some ⟨Except.ok v, putConnection conn s1,
                  [Event.openCursor conn, Event.commit conn,
                   Event.releaseConn conn, Event.closeCursor conn]⟩
        | Except.error e =>
            some ⟨Except.error e, s1,
                  [Event.openCursor conn, Event.commit conn, Event.closeCursor conn]⟩
    | WorkOutcome.raise (Exc.dbErr _) =>
        some ⟨Except.error (Exc.dbErr "Invalid query."), s1,
              [Event.openCursor conn, Event.closeConn conn, Event.closeCursor conn]⟩
    | WorkOutcome.raise (Exc.otherErr m) =>
        some ⟨Except.error (Exc.otherErr m), s1,
              [Event.openCursor conn, Event.closeCursor conn]⟩

end RWDBPool

/-- Primitive actions relevant to the locking discipline, in the order the
method bodies perform them. -/
inductive LockAction where
  | lockAcquire
  | lockRelease
  | mutatePool
  | mutateCreated
  | sleep
deriving DecidableEq, Repr

/-- Walk an action trace tracking whether `self._lock` is held; `true` iff
every mutation of `_pool` or `_conn_created` happens while the lock is held. -/
def lockDisciplineFrom (held : Bool) : List LockAction → Bool
  | [] => true
  | LockAction.lockAcquire :: rest => lockDisciplineFrom true rest
  | LockAction.lockRelease :: rest => lockDisciplineFrom false rest
  | LockAction.mutatePool :: rest => held && lockDisciplineFrom held rest
  | LockAction.mutateCreated :: rest => held && lockDisciplineFrom held rest
  | LockAction.sleep :: rest => lockDisciplineFrom held rest

/-- A trace mutates the pool's collections only while holding the lock. -/
def mutatesOnlyUnderLock (acts : List LockAction) : Bool :=
  lockDisciplineFrom false acts

/-- The action trace of one iteration of `_get_connection`'s loop body: the
whole `if`/`else` sits inside `with self._lock`, including the
`time.sleep(0.1)` of the exhausted branch. -/
def getConnectionActions (s : PoolState) : List LockAction :=
  if s.pool.length > 0 then
    [LockAction.lockAcquire, LockAction.mutatePool, LockAction.lockRelease]
  else if s.conn_created < s.pool_size then
    [LockAction.lockAcquire, LockAction.mutateCreated, LockAction.lockRelease]
  else
    [LockAction.lockAcquire, LockAction.sleep, LockAction.lockRelease]

/-- The action trace of `_put_connection`: a bare `self._pool.append(conn)`;
the method does not touch `self._lock`. -/
def putConnectionActions : List LockAction :=
  [LockAction.mutatePool]

end DBPool

namespace DBPool

/-- One step preserves the capacity bound and never changes `_pool_size`. -/
theorem applyOp_inv (s : PoolState) (op : Op) (h : s.conn_created ≤ s.pool_size) :
    (applyOp s op).conn_created ≤ (applyOp s op).pool_size ∧
      (applyOp s op).pool_size = s.pool_size := by
  cases op with
  | release c => exact ⟨h, rfl⟩
  | acquire cr =>
    unfold applyOp getConnection
    cases hgl : s.pool.getLast? with
    | some c => exact ⟨h, rfl⟩
    | none =>
      by_cases hlt : s.conn_created < s.pool_size
      · simp only [if_pos hlt]
        cases cr with
        | ok u => exact ⟨hlt, by trivial⟩
        | error e => exact ⟨h, by trivial⟩
      · simp only [if_neg hlt]
        exact ⟨h, by trivial⟩

/-- Any sequence of operations preserves the capacity bound. -/
theorem runOps_inv (ops : List Op) (s : PoolState) (h : s.conn_created ≤ s.pool_size) :
    (runOps s ops).conn_created ≤ (runOps s ops).pool_size ∧
      (runOps s ops).pool_size = s.pool_size := by
  induction ops generalizing s with
  | nil => exact ⟨h, rfl⟩
  | cons op rest ih =>
    have h1 := applyOp_inv s op h
    have h2 := ih (applyOp s op) h1.1
    exact ⟨h2.1, h2.2.trans h1.2⟩

/-- C1: for every sequence of acquire and release operations on a pool
constructed with capacity `pool_size`, the `_conn_created` counter never
exceeds `pool_size`: acquire increments it only under the guard
`_conn_created < _pool_size`, so the number of connections ever created is
bounded by the capacity at every reachable state. -/
theorem C1_capacity_invariant (pool_size : Nat) (ops : List Op) :
    (runOps (initPool pool_size) ops).conn_created ≤ pool_size := by
  have h := runOps_inv ops (initPool pool_size) (Nat.zero_le _)
  have h1 := h.1
  rw [h.2] at h1
  exact h1

/-- Helper: a non-empty idle list is popped from the back, regardless of
the factory outcome. -/
theorem getConnection_pop (s : PoolState) (cr : Except Exc Unit) (rest : List Conn)
    (c : Conn) (hp : s.pool = rest ++ [c]) :
    getConnection cr s = AcquireResult.got c { s with pool := rest } := by
  unfold getConnection
  rw [hp, List.getLast?_concat, List.dropLast_concat]

/-- Helper: on an empty idle list with spare capacity and a successful
factory, acquire returns the fresh connection and increments the counter. -/
theorem getConnection_create_ok (s : PoolState) (hp : s.pool = [])
    (hlt : s.conn_created < s.pool_size) :
    getConnection (Except.ok ()) s =
      AcquireResult.got s.conn_created { s with conn_created := s.conn_created + 1 } := by
  unfold getConnection
  rw [hp]
  simp only [List.getLast?_nil, if_pos hlt]

/-- Helper: on an empty idle list with spare capacity and a failing
factory, acquire raises the factory's exception with the state unchanged. -/
theorem getConnection_create_err (e : Exc) (s : PoolState) (hp : s.pool = [])
    (hlt : s.conn_created < s.pool_size) :
    getConnection (Except.error e) s = AcquireResult.raised e s := by
  unfold getConnection
  rw [hp]
  simp only [List.getLast?_nil, if_pos hlt]

/-- C6: if the idle list is non-empty, `_get_connection` pops and returns
its most recently appended element without touching `_conn_created`; if the
idle list is empty and `_conn_created < _pool_size`, it creates a fresh
connection, increments `_conn_created` and returns the new connection. -/
theorem C6_acquire_pop_or_create (s : PoolState) (cr : Except Exc Unit) :
    (∀ rest c, s.pool = rest ++ [c] →
        getConnection cr s = AcquireResult.got c { s with pool := rest }) ∧
    (s.pool = [] → s.conn_created < s.pool_size →
        getConnection (Except.ok ()) s =
          AcquireResult.got s.conn_created { s with conn_created := s.conn_created + 1 }) :=
  ⟨fun rest c hp => getConnection_pop s cr rest c hp,
   fun hp hlt => getConnection_create_ok s hp hlt⟩

/-- Closed instance of `C6_acquire_pop_or_create`: with idle list `[7, 3]`
acquire returns `3` (the most recently released connection) leaving `[7]`,
and with an empty idle list and `created = 1 < 2` it returns the fresh
connection `1` with `created = 2`. -/
theorem C6_acquire_pop_or_create_witness :
    getConnection (Except.ok ()) ⟨[7, 3], 2, 2⟩ = AcquireResult.got 3 ⟨[7], 2, 2⟩ ∧
    getConnection (Except.ok ()) ⟨[], 1, 2⟩ = AcquireResult.got 1 ⟨[], 2, 2⟩ := by
  constructor
  · exact (C6_acquire_pop_or_create ⟨[7, 3], 2, 2⟩ (Except.ok ())).1 [7] 3 rfl
  · exact (C6_acquire_pop_or_create ⟨[], 1, 2⟩ (Except.ok ())).2 rfl (by decide)

/-- C9: when the idle list is empty and `_conn_created < _pool_size`, so
that `_create_connection` is reached and the factory raises `e`, the
exception propagates unchanged out of `_get_connection` and out of the
scoped accessors, `_conn_created` is not incremented, the idle list is
untouched, and no cursor/close/commit/release event occurs. -/
theorem C9_create_failure_propagates (e : Exc) (s : PoolState) (w : WorkOutcome Unit)
    (commitRes : Except Exc Unit)
    (hp : s.pool = []) (hlt : s.conn_created < s.pool_size) :
    getConnection (Except.error e) s = AcquireResult.raised e s ∧
    RODBPool.connection w (Except.error e) s = some ⟨Except.error e, s, []⟩ ∧
    RWDBPool.transaction w commitRes (Except.error e) s = some ⟨Except.error e, s, []⟩ := by
  have hg := getConnection_create_err e s hp hlt
  refine ⟨hg, ?_, ?_⟩
  · unfold RODBPool.connection
    rw [hg]
  · unfold RWDBPool.transaction
    rw [hg]

/-- Closed instance of `C9_create_failure_propagates` on a fresh pool of
capacity 1. -/
theorem C9_create_failure_propagates_witness :
    getConnection (Except.error (Exc.dbErr "connect failed")) (initPool 1) =
      AcquireResult.raised (Exc.dbErr "connect failed") (initPool 1) ∧
    RODBPool.connection (WorkOutcome.ok ()) (Except.error (Exc.dbErr "connect failed"))
        (initPool 1) =
      some ⟨Except.error (Exc.dbErr "connect failed"), initPool 1, []⟩ ∧
    RWDBPool.transaction (WorkOutcome.ok ()) (Except.ok ())
        (Except.error (Exc.dbErr "connect failed")) (initPool 1) =
      some ⟨Except.error (Exc.dbErr "connect failed"), initPool 1, []⟩ :=
  C9_create_failure_propagates (Exc.dbErr "connect failed") (initPool 1)
    (WorkOutcome.ok ()) (Except.ok ()) rfl (by decide)

/-- C10: `_put_connection` performs no validation, so releasing the same
connection twice leaves it in the idle list twice, and the next two acquire
calls each pop and return that same connection. -/
theorem C10_double_release (s : PoolState) (c : Conn) (cr : Except Exc Unit) :
    (putConnection c (putConnection c s)).pool.count c = s.pool.count c + 2 ∧
    getConnection cr (putConnection c (putConnection c s)) =
      AcquireResult.got c (putConnection c s) ∧
    getConnection cr (putConnection c s) = AcquireResult.got c s := by
  refine ⟨?_, ?_, ?_⟩
  · simp [putConnection, List.count_append]
  · exact getConnection_pop (putConnection c (putConnection c s)) cr
      (putConnection c s).pool c rfl
  · exact getConnection_pop (putConnection c s) cr s.pool c rfl

/-- Helper: with a successful factory, one acquire attempt either yields a
connection — leaving the idle list a sublist of the old one and
`_conn_created` unchanged or incremented — or blocks. -/
theorem getConnection_ok_cases (s : PoolState) :
    (∃ c s1, getConnection (Except.ok ()) s = AcquireResult.got c s1 ∧
        List.Sublist s1.pool s.pool ∧ s.conn_created ≤ s1.conn_created) ∨
    getConnection (Except.ok ()) s = AcquireResult.blocked := by
  unfold getConnection
  cases hgl : s.pool.getLast? with
  | some c =>
    exact Or.inl ⟨c, { s with pool := s.pool.dropLast }, rfl,
      List.dropLast_sublist s.pool, Nat.le_refl _⟩
  | none =>
    by_cases hlt : s.conn_created < s.pool_size
    · refine Or.inl ⟨s.conn_created, { s with conn_created := s.conn_created + 1 }, ?_, ?_, ?_⟩
      · simp only [if_pos hlt]
      · exact List.Sublist.refl _
      · exact Nat.le_succ _
    · simp only [if_neg hlt]
      exact Or.inr trivial

/-- C2 as stated is false on the code: the `except psycopg2.Error` clause
does not catch other exception classes, so a unit of work raising a
non-database failure leaves the borrowed connection neither closed nor
returned to the pool.  Concretely, on a fresh pool of capacity 1 the trace
is `[openCursor 0, closeCursor 0]` — no `closeConn` event occurs. -/
theorem C2_counterexample :
    RODBPool.connection (α := Unit) (WorkOutcome.raise (Exc.otherErr "boom"))
        (Except.ok ()) (initPool 1) =
      some ⟨Except.error (Exc.otherErr "boom"), ⟨[], 1, 1⟩,
            [Event.openCursor 0, Event.closeCursor 0]⟩ ∧
    Event.closeConn 0 ∉ [Event.openCursor 0, Event.closeCursor 0] :=
  ⟨rfl, by decide⟩

/-- C2 (amended): if the unit of work raises a database error
(`psycopg2.Error`), both accessors close the borrowed connection, never
append it back to the idle list (`_put_connection` is never reached and
the idle list only shrinks), and `_conn_created` is not decremented.  A
failure of any other exception class instead propagates with the
connection neither closed nor returned (see `C2_counterexample`). -/
theorem C2_discard_on_db_failure (m : String) (cRes : Except Exc Unit) (s : PoolState)
    (r1 r2 : SessionRes Unit)
    (h1 : RODBPool.connection (WorkOutcome.raise (Exc.dbErr m)) (Except.ok ()) s = some r1)
    (h2 : RWDBPool.transaction (WorkOutcome.raise (Exc.dbErr m)) cRes (Except.ok ()) s
        = some r2) :
    (∃ c, r1.events = [Event.openCursor c, Event.closeConn c, Event.closeCursor c]) ∧
    (∃ c, r2.events = [Event.openCursor c, Event.closeConn c, Event.closeCursor c]) ∧
    (∀ c, Event.releaseConn c ∉ r1.events) ∧
    (∀ c, Event.releaseConn c ∉ r2.events) ∧
    List.Sublist r1.state.pool s.pool ∧ List.Sublist r2.state.pool s.pool ∧
    s.conn_created ≤ r1.state.conn_created ∧ s.conn_created ≤ r2.state.conn_created := by
  rcases getConnection_ok_cases s with ⟨c, s1, hg, hsub, hle⟩ | hg
  · unfold RODBPool.connection at h1
    unfold RWDBPool.transaction at h2
    rw [hg] at h1 h2
    injection h1 with h1
    injection h2 with h2
    subst h1
    subst h2
    refine ⟨⟨c, rfl⟩, ⟨c, rfl⟩, ?_, ?_, hsub, hsub, hle, hle⟩
    · intro c2 hc2
      simp at hc2
    · intro c2 hc2
      simp at hc2
  · unfold RODBPool.connection at h1
    rw [hg] at h1
    exact absurd h1 (by simp)

/-- Closed instance of `C2_discard_on_db_failure` on a fresh pool of
capacity 1. -/
theorem C2_discard_on_db_failure_witness :
    (∃ c, (⟨Except.error (Exc.dbErr "Invalid query."), ⟨[], 1, 1⟩,
        [Event.openCursor 0, Event.closeConn 0, Event.closeCursor 0]⟩ :
          SessionRes Unit).events =
        [Event.openCursor c, Event.closeConn c, Event.closeCursor c]) ∧
    (∃ c, (⟨Except.error (Exc.dbErr "Invalid query."), ⟨[], 1, 1⟩,
        [Event.openCursor 0, Event.closeConn 0, Event.closeCursor 0]⟩ :
          SessionRes Unit).events =
        [Event.openCursor c, Event.closeConn c, Event.closeCursor c]) ∧
    (∀ c, Event.releaseConn c ∉ (⟨Except.error (Exc.dbErr "Invalid query."), ⟨[], 1, 1⟩,
        [Event.openCursor 0, Event.closeConn 0, Event.closeCursor 0]⟩ :
          SessionRes Unit).events) ∧
    (∀ c, Event.releaseConn c ∉ (⟨Except.error (Exc.dbErr "Invalid query."), ⟨[], 1, 1⟩,
        [Event.openCursor 0, Event.closeConn 0, Event.closeCursor 0]⟩ :
          SessionRes Unit).events) ∧
    List.Sublist (⟨Except.error (Exc.dbErr "Invalid query."), ⟨[], 1, 1⟩,
        [Event.openCursor 0, Event.closeConn 0, Event.closeCursor 0]⟩ :
          SessionRes Unit).state.pool (initPool 1).pool ∧
    List.Sublist (⟨Except.error (Exc.dbErr "Invalid query."), ⟨[], 1, 1⟩,
        [Event.openCursor 0, Event.closeConn 0, Event.closeCursor 0]⟩ :
          SessionRes Unit).state.pool (initPool 1).pool ∧
    (initPool 1).conn_created ≤ (⟨Except.error (Exc.dbErr "Invalid query."), ⟨[], 1, 1⟩,
        [Event.openCursor 0, Event.closeConn 0, Event.closeCursor 0]⟩ :
          SessionRes Unit).state.conn_created ∧
    (initPool 1).conn_created ≤ (⟨Except.error (Exc.dbErr "Invalid query."), ⟨[], 1, 1⟩,
        [Event.openCursor 0, Event.closeConn 0, Event.closeCursor 0]⟩ :
          SessionRes Unit).state.conn_created :=
  C2_discard_on_db_failure "boom" (Except.ok ()) (initPool 1) _ _ rfl rfl

/-- C3 as stated is false on the code: `conn.commit()` sits in the `else`
clause of the `try` statement, and in Python an exception raised in an
`else` clause is not caught by the `except` clause of the same `try`.  A
failing commit therefore propagates unchanged — not as the uniform
`'Invalid query.'` error — and the connection is not closed. -/
theorem C3_counterexample :
    RWDBPool.transaction (α := Unit) (WorkOutcome.ok ())
        (Except.error (Exc.dbErr "commit failed")) (Except.ok ()) (initPool 1) =
      some ⟨Except.error (Exc.dbErr "commit failed"), ⟨[], 1, 1⟩,
            [Event.openCursor 0, Event.commit 0, Event.closeCursor 0]⟩ ∧
    Exc.dbErr "commit failed" ≠ Exc.dbErr "Invalid query." ∧
    Event.closeConn 0 ∉ [Event.openCursor 0, Event.commit 0, Event.closeCursor 0] :=
  ⟨rfl, by decide, by decide⟩

/-- C3 (amended): a database error raised by the unit of work is caught by
`transaction()`: the connection is closed and the failure is re-raised as
the uniform `psycopg2.Error('Invalid query.')`.  A failure raised by the
commit step is not caught: it propagates to the caller unchanged and the
connection is neither closed nor released. -/
theorem C3_uniform_error_on_work_failure_only (m : String) (e : Exc)
    (cRes : Except Exc Unit) (s : PoolState) (r1 r2 : SessionRes Unit)
    (h1 : RWDBPool.transaction (WorkOutcome.raise (Exc.dbErr m)) cRes (Except.ok ()) s
        = some r1)
    (h2 : RWDBPool.transaction (WorkOutcome.ok ()) (Except.error e) (Except.ok ()) s
        = some r2) :
    (r1.result = Except.error (Exc.dbErr "Invalid query.") ∧
      ∃ c, r1.events = [Event.openCursor c, Event.closeConn c, Event.closeCursor c]) ∧
    (r2.result = Except.error e ∧
      (∀ c, Event.closeConn c ∉ r2.events) ∧
      (∀ c, Event.releaseConn c ∉ r2.events)) := by
  rcases getConnection_ok_cases s with ⟨c, s1, hg, hsub, hle⟩ | hg
  · unfold RWDBPool.transaction at h1 h2
    rw [hg] at h1 h2
    injection h1 with h1
    injection h2 with h2
    subst h1
    subst h2
    refine ⟨⟨rfl, c, rfl⟩, rfl, ?_, ?_⟩
    · intro c2 hc2
      simp at hc2
    · intro c2 hc2
      simp at hc2
  · unfold RWDBPool.transaction at h1
    rw [hg] at h1
    exact absurd h1 (by simp)

/-- Closed instance of `C3_uniform_error_on_work_failure_only` on a fresh
pool of capacity 1. -/
theorem C3_uniform_error_witness :
    ((⟨Except.error (Exc.dbErr "Invalid query."), ⟨[], 1, 1⟩,
        [Event.openCursor 0, Event.closeConn 0, Event.closeCursor 0]⟩ :
          SessionRes Unit).result = Except.error (Exc.dbErr "Invalid query.") ∧
      ∃ c, (⟨Except.error (Exc.dbErr "Invalid query."), ⟨[], 1, 1⟩,
        [Event.openCursor 0, Event.closeConn 0, Event.closeCursor 0]⟩ :
          SessionRes Unit).events =
        [Event.openCursor c, Event.closeConn c, Event.closeCursor c]) ∧
    ((⟨Except.error (Exc.dbErr "commit failed"), ⟨[], 1, 1⟩,
        [Event.openCursor 0, Event.commit 0, Event.closeCursor 0]⟩ :
          SessionRes Unit).result = Except.error (Exc.dbErr "commit failed") ∧
      (∀ c, Event.closeConn c ∉ (⟨Except.error (Exc.dbErr "commit failed"), ⟨[], 1, 1⟩,
          [Event.openCursor 0, Event.commit 0, Event.closeCursor 0]⟩ :
            SessionRes Unit).events) ∧
      (∀ c, Event.releaseConn c ∉ (⟨Except.error (Exc.dbErr "commit failed"), ⟨[], 1, 1⟩,
          [Event.openCursor 0, Event.commit 0, Event.closeCursor 0]⟩ :
            SessionRes Unit).events)) :=
  C3_uniform_error_on_work_failure_only "boom" (Exc.dbErr "commit failed")
    (Except.ok ()) (initPool 1) _ _ rfl rfl

/-- C4 as stated is false on the code: when the unit of work succeeds but
`conn.commit()` raises, the commit has been called yet
`self._put_connection(conn)` is never reached (the exception leaves the
`else` clause), so the connection is appended back zero times, not once. -/
theorem C4_counterexample :
    RWDBPool.transaction (α := Unit) (WorkOutcome.ok ())
        (Except.error (Exc.dbErr "deferred constraint violated")) (Except.ok ())
        (initPool 1) =
      some ⟨Except.error (Exc.dbErr "deferred constraint violated"), ⟨[], 1, 1⟩,
            [Event.openCursor 0, Event.commit 0, Event.closeCursor 0]⟩ ∧
    Event.releaseConn 0 ∉ [Event.openCursor 0, Event.commit 0, Event.closeCursor 0] ∧
    (⟨[], 1, 1⟩ : PoolState).pool = [] :=
  ⟨rfl, by decide, rfl⟩

/-- C4 (amended): for every unit of work that completes without error and
whose commit step succeeds, `transaction()` calls `conn.commit()` exactly
once and afterwards appends the connection back to the idle list exactly
once; if the commit raises, the connection is not appended at all. -/
theorem C4_commit_then_release (α : Type) (v : α) (s : PoolState) (r r2 : SessionRes α)
    (e : Exc)
    (h : RWDBPool.transaction (WorkOutcome.ok v) (Except.ok ()) (Except.ok ()) s = some r)
    (h2 : RWDBPool.transaction (WorkOutcome.ok v) (Except.error e) (Except.ok ()) s
        = some r2) :
    (∃ c, r.events = [Event.openCursor c, Event.commit c,
        Event.releaseConn c, Event.closeCursor c] ∧
      r.events.count (Event.commit c) = 1 ∧
      r.events.count (Event.releaseConn c) = 1 ∧
      r.state.pool.getLast? = some c) ∧
    (∀ c, Event.releaseConn c ∉ r2.events) := by
  rcases getConnection_ok_cases s with ⟨c, s1, hg, hsub, hle⟩ | hg
  · unfold RWDBPool.transaction at h h2
    rw [hg] at h h2
    injection h with h
    injection h2 with h2
    subst h
    subst h2
    refine ⟨⟨c, rfl, ?_, ?_, ?_⟩, ?_⟩
    · simp [List.count_cons]
    · simp [List.count_cons]
    · exact List.getLast?_concat s1.pool
    · intro c2 hc2
      simp at hc2
  · unfold RWDBPool.transaction at h
    rw [hg] at h
    exact absurd h (by simp)

/-- Closed instance of `C4_commit_then_release` on a fresh pool of
capacity 1. -/
theorem C4_commit_then_release_witness :
    (∃ c, (⟨Except.ok (), ⟨[0], 1, 1⟩, [Event.openCursor 0, Event.commit 0,
          Event.releaseConn 0, Event.closeCursor 0]⟩ : SessionRes Unit).events =
        [Event.openCursor c, Event.commit c, Event.releaseConn c, Event.closeCursor c] ∧
      (⟨Except.ok (), ⟨[0], 1, 1⟩, [Event.openCursor 0, Event.commit 0,
          Event.releaseConn 0, Event.closeCursor 0]⟩ :
            SessionRes Unit).events.count (Event.commit c) = 1 ∧
      (⟨Except.ok (), ⟨[0], 1, 1⟩, [Event.openCursor 0, Event.commit 0,
          Event.releaseConn 0, Event.closeCursor 0]⟩ :
            SessionRes Unit).events.count (Event.releaseConn c) = 1 ∧
      (⟨Except.ok (), ⟨[0], 1, 1⟩, [Event.openCursor 0, Event.commit 0,
          Event.releaseConn 0, Event.closeCursor 0]⟩ :
            SessionRes Unit).state.pool.getLast? = some c) ∧
    (∀ c, Event.releaseConn c ∉ (⟨Except.error (Exc.dbErr "cfail"), ⟨[], 1, 1⟩,
        [Event.openCursor 0, Event.commit 0, Event.closeCursor 0]⟩ :
          SessionRes Unit).events) :=
  C4_commit_then_release Unit () (initPool 1) _ _ (Exc.dbErr "cfail") rfl rfl

/-- C5: on every return of `connection()` or `transaction()` — success of
the work, a database failure in the work, a non-database failure in the
work, and a failure in commit — if a cursor was opened on the borrowed
connection then the last event before control returns is closing that
cursor (the `finally` clause). -/
theorem C5_cursor_always_closed (α : Type) (w : WorkOutcome α)
    (cRes createRes : Except Exc Unit) (s : PoolState) (r1 r2 : SessionRes α)
    (h1 : RODBPool.connection w createRes s = some r1)
    (h2 : RWDBPool.transaction w cRes createRes s = some r2) :
    (∀ c, Event.openCursor c ∈ r1.events →
        r1.events.getLast? = some (Event.closeCursor c)) ∧
    (∀ c, Event.openCursor c ∈ r2.events →
        r2.events.getLast? = some (Event.closeCursor c)) := by
  unfold RODBPool.connection at h1
  unfold RWDBPool.transaction at h2
  cases hg : getConnection createRes s with
  | blocked =>
    rw [hg] at h1
    exact absurd h1 (by simp)
  | raised e s1 =>
    rw [hg] at h1 h2
    injection h1 with h1
    injection h2 with h2
    subst h1
    subst h2
    constructor
    · intro c hc
      simp at hc
    · intro c hc
      simp at hc
  | got conn s1 =>
    rw [hg] at h1 h2
    cases w with
    | ok v =>
      injection h1 with h1
      subst h1
      cases cRes with
      | ok u =>
        injection h2 with h2
        subst h2
        constructor
        · intro c hc
          simp at hc
          subst hc
          rfl
        · intro c hc
          simp at hc
          subst hc
          rfl
      | error e =>
        injection h2 with h2
        subst h2
        constructor
        · intro c hc
          simp at hc
          subst hc
          rfl
        · intro c hc
          simp at hc
          subst hc
          rfl
    | raise e =>
      cases e with
      | dbErr m =>
        injection h1 with h1
        injection h2 with h2
        subst h1
        subst h2
        constructor
        · intro c hc
          simp at hc
          subst hc
          rfl
        · intro c hc
          simp at hc
          subst hc
          rfl
      | otherErr m =>
        injection h1 with h1
        injection h2 with h2
        subst h1
        subst h2
        constructor
        · intro c hc
          simp at hc
          subst hc
          rfl
        · intro c hc
          simp at hc
          subst hc
          rfl

/-- Closed instance of `C5_cursor_always_closed` on a fresh pool of
capacity 1 with a successful unit of work. -/
theorem C5_cursor_always_closed_witness :
    (∀ c, Event.openCursor c ∈ (⟨Except.ok (), ⟨[0], 1, 1⟩,
        [Event.openCursor 0, Event.releaseConn 0, Event.closeCursor 0]⟩ :
          SessionRes Unit).events →
      (⟨Except.ok (), ⟨[0], 1, 1⟩,
        [Event.openCursor 0, Event.releaseConn 0, Event.closeCursor 0]⟩ :
          SessionRes Unit).events.getLast? = some (Event.closeCursor c)) ∧
    (∀ c, Event.openCursor c ∈ (⟨Except.ok (), ⟨[0], 1, 1⟩,
        [Event.openCursor 0, Event.commit 0, Event.releaseConn 0,
         Event.closeCursor 0]⟩ : SessionRes Unit).events →
      (⟨Except.ok (), ⟨[0], 1, 1⟩,
        [Event.openCursor 0, Event.commit 0, Event.releaseConn 0,
         Event.closeCursor 0]⟩ :
          SessionRes Unit).events.getLast? = some (Event.closeCursor c)) :=
  C5_cursor_always_closed Unit (WorkOutcome.ok ()) (Except.ok ()) (Except.ok ())
    (initPool 1) _ _ rfl rfl

/-- C7 as stated is false on the code: `_put_connection` is a bare
`self._pool.append(conn)` that never touches `self._lock`, so the release
path mutates the idle list without holding the lock. -/
theorem C7_counterexample :
    mutatesOnlyUnderLock putConnectionActions = false :=
  rfl

/-- C7 (amended): the mutations performed by `_get_connection` (popping the
idle list, incrementing `_conn_created`) all happen while `self._lock` is
held, but `_put_connection` appends to the idle list without acquiring the
lock. -/
theorem C7_lock_discipline (s : PoolState) :
    mutatesOnlyUnderLock (getConnectionActions s) = true ∧
    mutatesOnlyUnderLock putConnectionActions = false := by
  constructor
  · unfold getConnectionActions
    split
    · rfl
    · split
      · rfl
      · rfl
  · rfl

/-- C8: a unit of work that returns `v` without error through the
read-only accessor yields `v` to the caller, the borrowed connection is
appended back to the idle list exactly once (it becomes the last idle
element), and no commit event ever occurs. -/
theorem C8_readonly_success (α : Type) (v : α) (s : PoolState) (r : SessionRes α)
    (h : RODBPool.connection (WorkOutcome.ok v) (Except.ok ()) s = some r) :
    r.result = Except.ok v ∧
    (∃ c, r.events = [Event.openCursor c, Event.releaseConn c, Event.closeCursor c] ∧
      r.events.count (Event.releaseConn c) = 1 ∧
      r.state.pool.getLast? = some c) ∧
    (∀ c, Event.commit c ∉ r.events) := by
  rcases getConnection_ok_cases s with ⟨c, s1, hg, hsub, hle⟩ | hg
  · unfold RODBPool.connection at h
    rw [hg] at h
    injection h with h
    subst h
    refine ⟨rfl, ⟨c, rfl, ?_, ?_⟩, ?_⟩
    · simp [List.count_cons]
    · exact List.getLast?_concat s1.pool
    · intro c2 hc2
      simp at hc2
  · unfold RODBPool.connection at h
    rw [hg] at h
    exact absurd h (by simp)

/-- Closed instance of `C8_readonly_success` on a fresh pool of
capacity 1. -/
theorem C8_readonly_success_witness :
    (⟨Except.ok (), ⟨[0], 1, 1⟩,
        [Event.openCursor 0, Event.releaseConn 0, Event.closeCursor 0]⟩ :
          SessionRes Unit).result = Except.ok () ∧
    (∃ c, (⟨Except.ok (), ⟨[0], 1, 1⟩,
        [Event.openCursor 0, Event.releaseConn 0, Event.closeCursor 0]⟩ :
          SessionRes Unit).events =
        [Event.openCursor c, Event.releaseConn c, Event.closeCursor c] ∧
      (⟨Except.ok (), ⟨[0], 1, 1⟩,
        [Event.openCursor 0, Event.releaseConn 0, Event.closeCursor 0]⟩ :
          SessionRes Unit).events.count (Event.releaseConn c) = 1 ∧
      (⟨Except.ok (), ⟨[0], 1, 1⟩,
        [Event.openCursor 0, Event.releaseConn 0, Event.closeCursor 0]⟩ :
          SessionRes Unit).state.pool.getLast? = some c) ∧
    (∀ c, Event.commit c ∉ (⟨Except.ok (), ⟨[0], 1, 1⟩,
        [Event.openCursor 0, Event.releaseConn 0, Event.closeCursor 0]⟩ :
          SessionRes Unit).events) :=
  C8_readonly_success Unit () (initPool 1) _ rfl

end DBPool
